import Mathlib

/-!
Verification of the scintilla-termbox platform layer.

This file gives a shallow embedding, in Lean, of the terminal-surface
rendering and input-translation code of the repository (PlatTermbox.cxx,
PlatTermbox.h, ScintillaTermbox.cxx, ScintillaTermbox.h) and proves or
refutes the behavioural claims C1 to C10 about it.

Modelling conventions:
- C `int` values are modelled as `Int`; C integer division (truncation
  toward zero) is `Int.tdiv` and C `%` is `Int.tmod`.
- `PRectangle` coordinates (C `double`) are modelled at integer values,
  where every `static_cast<int>` is the identity; the fractional-left
  whitespace branch of `FillRectangle` has an empty body in the source,
  so nothing is lost.
- Byte strings (`char *`, `std::string_view`) are `List Nat`, one entry
  per byte; the strings handled by the modelled paths are NUL-free, the
  terminating NUL being the end of the list.
- A call to the terminal device primitive `tb_change_cell(x, y, ch, fg, bg)`
  is recorded as a `CellWrite`; drawing functions return the list of
  cell writes they issue, in order.
- External collaborators that are not in the repository (the termbox
  UTF-8 helpers `utf8_char_length` and `utf8_char_to_unicode`, and
  Scintilla's `UTF8IsTrailByte` and `UTF8DrawBytes`) are modelled from
  their standard upstream implementations, as noted at each definition.
-/

/-- Rectangular sub-region of the terminal grid, from PlatTermbox.h
(struct TermboxWin): absolute inclusive cell coordinates. -/
structure TermboxWin where
  left : Int
  top : Int
  right : Int
  bottom : Int
deriving DecidableEq, Repr

/-- Width of a TermboxWin: `right - left + 1` (PlatTermbox.h line 14). -/
def TermboxWin.Width (w : TermboxWin) : Int := w.right - w.left + 1

/-- Height of a TermboxWin: `bottom - top + 1` (PlatTermbox.h line 15). -/
def TermboxWin.Height (w : TermboxWin) : Int := w.bottom - w.top + 1

/-- Relocation of a TermboxWin preserving its size (PlatTermbox.h lines 16-21). -/
def TermboxWin.Move (w : TermboxWin) (newx newy : Int) : TermboxWin :=
  { left := newx, top := newy,
    right := w.right + newx - w.left, bottom := w.bottom + newy - w.top }

/-- Scintilla PRectangle, at integer coordinates (see the file header). -/
structure PRect where
  left : Int
  top : Int
  right : Int
  bottom : Int
deriving DecidableEq, Repr

/-- An RGB colour as carried by Scintilla's ColourRGBA. -/
structure RGB where
  red : Nat
  green : Nat
  blue : Nat
deriving DecidableEq, Repr

/-- Packing of a colour into one integer, from SurfaceImpl::to_rgb
(ScintillaTermbox.cxx lines 143-145): `(r << 16) + (g << 8) + b`. -/
def to_rgb (c : RGB) : Nat := c.red * 65536 + c.green * 256 + c.blue

/-- One call to the terminal device primitive
`tb_change_cell(x, y, ch, fg, bg)`. -/
structure CellWrite where
  x : Int
  y : Int
  ch : Nat
  fg : Nat
  bg : Nat
deriving DecidableEq, Repr

/-- Expected byte length of a UTF-8 sequence from its first byte; model of
the termbox helper `utf8_char_length` (external collaborator: termbox
utf8.c length table: bytes up to 0xBF map to 1, 0xC0-0xDF to 2,
0xE0-0xEF to 3, 0xF0-0xF7 to 4, 0xF8-0xFB to 5, the rest to 6). -/
def utf8_char_length (b : Nat) : Nat :=
  if b < 0xC0 then 1
  else if b < 0xE0 then 2
  else if b < 0xF0 then 3
  else if b < 0xF8 then 4
  else if b < 0xFC then 5
  else 6

/-- Test for a UTF-8 continuation byte; model of Scintilla's
`UTF8IsTrailByte` (external collaborator, UniConversion.h):
`0x80 <= ch && ch < 0xC0`. -/
def UTF8IsTrailByte (b : Nat) : Bool := 0x80 ≤ b && b < 0xC0

/-- Display-column width of the first UTF-8 character of a byte string,
from SurfaceImpl::grapheme_width (ScintillaTermbox.cxx lines 137-141):
reads the first byte, returns 2 when its expected sequence length
exceeds 1 and 1 otherwise. -/
def grapheme_width (s : List Nat) : Int :=
  let len := utf8_char_length (s.headD 0)
  if len > 1 then 2 else 1

/-- Platform wide-character facilities used by the PlatTermbox.cxx variant
of grapheme_width: `mbtowc` returns (return value, decoded wide char),
a return value below 1 meaning decoding failure, and `wcwidth` gives the
display width of a wide character, negative meaning non-printable. -/
structure WideCharPlatform where
  mbtowc : List Nat → Int × Nat
  wcwidth : Nat → Int

/-- Display-column width of the first UTF-8 character of a byte string,
from the free function grapheme_width in PlatTermbox.cxx lines 69-75:
returns 1 when `mbtowc` fails, otherwise the `wcwidth` of the decoded
character when that is nonnegative and 1 otherwise. -/
def grapheme_width_mb (P : WideCharPlatform) (s : List Nat) : Int :=
  let r := (P.mbtowc s).1
  if r < 1 then 1
  else
    let width := P.wcwidth (P.mbtowc s).2
    if width ≥ 0 then width else 1

/-- First-byte payload mask of a UTF-8 sequence of the given length
(external collaborator: termbox utf8.c mask table). -/
def utf8_mask (len : Nat) : Nat :=
  match len with
  | 1 => 0x7F
  | 2 => 0x1F
  | 3 => 0x0F
  | 4 => 0x07
  | 5 => 0x03
  | _ => 0x01

/-- Decoding of the first UTF-8 character of a byte string, returning the
code point and the number of bytes consumed; model of the termbox helper
`utf8_char_to_unicode` (external collaborator, termbox utf8.c): masks the
first byte and folds each continuation byte with `(acc << 6) | (t & 0x3F)`. -/
def utf8_char_to_unicode (s : List Nat) : Nat × Nat :=
  match s with
  | [] => (0, 1)
  | b :: rest =>
    let len := utf8_char_length b
    let uni := (rest.take (len - 1)).foldl
      (fun acc t => acc <<< 6 ||| (t &&& 0x3F)) (b &&& utf8_mask len)
    (uni, len)

/-- Cell writes issued by SurfaceImpl::FillRectangle (ScintillaTermbox.cxx
lines 222-255; the PlatTermbox.cxx copy at lines 202-245 has the same
clamp-and-loop core). The source guard `if (!win) return;` is dropped
because the embedding always passes the bound window. Faithful detail:
the source clamps `right` to `Width()` and uses it in the column loop,
while the clamped `bottom` is computed but the row loop iterates up to
`rc.bottom`; columns start at `rc.left` and rows at `rc.top`, unclamped. -/
def fillRectangle (w : TermboxWin) (rc : PRect) (fill : RGB) : List CellWrite :=
  let right := min rc.right w.Width
  let _bottom := min rc.bottom w.Height
  (List.range (rc.bottom - rc.top).toNat).flatMap (fun i =>
    (List.range (right - rc.left).toNat).map (fun j =>
      { x := w.left + (rc.left + j), y := w.top + (rc.top + i),
        ch := 0x20, fg := 0xffffff, bg := to_rgb fill }))

/-- Helper for SurfaceImpl::WidthText (ScintillaTermbox.cxx lines 425-431):
sums grapheme_width over every byte position that is not a continuation
byte, reading the width at the suffix starting there. -/
def widthTextGo : List Nat → Int
  | [] => 0
  | b :: rest =>
    (if UTF8IsTrailByte b then 0 else grapheme_width (b :: rest)) + widthTextGo rest

/-- Total display width of a byte string, from SurfaceImpl::WidthText
(ScintillaTermbox.cxx lines 425-431). -/
def WidthText (text : List Nat) : Int := widthTextGo text

/-- Concrete window, rectangle and colour exercising the FillRectangle
row-loop bound: a 10x5 window and a rectangle whose bottom (8) exceeds
the window height (5). -/
def fillWin1 : TermboxWin := ⟨0, 0, 9, 4⟩

/-- Rectangle used to exhibit the unclamped FillRectangle row loop. -/
def fillRect1 : PRect := ⟨0, 0, 3, 8⟩

/-- Fill colour used by the FillRectangle evaluation (black). -/
def rgb0 : RGB := ⟨0, 0, 0⟩

/-- C1: evaluation of FillRectangle at the failing input. On the bound
window (0,0,9,4) (Width 10, Height 5) with rectangle (0,0,3,8), the code
issues cell writes at rows 5, 6 and 7 of the window, i.e. at relative row
coordinates at or beyond Height(): the clamped `bottom` is computed but
the row loop iterates to `rc.bottom`, contradicting the claim that writes
stay inside `[0, Width()) x [0, Height())`. -/
theorem C1_fillRectangle_writes_outside_window :
    (fillRectangle fillWin1 fillRect1 rgb0).any
      (fun c => decide (fillWin1.top + fillWin1.Height ≤ c.y)) = true := by
  decide

/-- Shared clip-skip loop of SurfaceImpl::DrawTextNoClip (ScintillaTermbox.cxx
lines 331-338 and 349-353): walks the bytes at increasing offsets,
accumulating grapheme_width at each non-continuation byte (read from the
suffix at the current offset, matching `text.data() + offset`), and stops
at the first offset whose accumulated width exceeds `clipChars`. -/
def clipSkipGo (rest : List Nat) (offset : Nat) (chars clipChars : Int) : Nat :=
  match rest with
  | [] => offset
  | b :: tail =>
    let chars' := if UTF8IsTrailByte b then chars else chars + grapheme_width (b :: tail)
    if chars' > clipChars then offset else clipSkipGo tail (offset + 1) chars' clipChars

/-- Entry point of the clip-skip loop at offset 0 with no width consumed. -/
def clipSkip (text : List Nat) (clipChars : Int) : Nat := clipSkipGo text 0 0 clipChars

/-- Drawing loop of SurfaceImpl::DrawTextNoClip (ScintillaTermbox.cxx lines
366-378): decodes one code point at a time, writes one cell for it, then
advances the column by its grapheme_width, stopping once the consumed
byte count reaches `bytes`. The state is carried as the remaining suffix
`rest` (matching `str + len`) and the remaining byte budget `bytesLeft`
(matching `bytes - len`); `fuel` is a structural-recursion bound, set to
the total byte budget by the caller, which never runs out because every
decode consumes at least one byte. -/
def drawLoopGo (fuel : Nat) (rest : List Nat) (bytesLeft : Nat)
    (x y wl wt : Int) (fg bg : Nat) : List CellWrite :=
  match fuel with
  | 0 => []
  | fuel' + 1 =>
    let width := grapheme_width rest
    let uni := (utf8_char_to_unicode rest).1
    let consumed := (utf8_char_to_unicode rest).2
    let wr : CellWrite := { x := wl + x, y := wt + y, ch := uni, fg := fg, bg := bg }
    if bytesLeft ≤ consumed then [wr]
    else wr :: drawLoopGo fuel' (rest.drop consumed) (bytesLeft - consumed)
      (x + width) y wl wt fg bg

/-- Cell writes issued by SurfaceImpl::DrawTextNoClip (ScintillaTermbox.cxx
lines 323-380; the PlatTermbox.cxx copy at lines 334-392 is identical).
Left-clip handling (when `rc.left < clip.left`): the prefix of
`clipSkip text (clip.left - rc.left)` bytes is removed and drawing starts
at column `clip.left`. Then the byte budget is limited by the clip-skip
loop against `Width() - rc.left` (the right window boundary), and the
drawing loop runs unless the budget is 0 or the first byte is NUL
(the source condition `while (*str)` tests the first byte only, since
`str` is never advanced). -/
def drawTextNoClip (w : TermboxWin) (clip rc : PRect) (attrs : Nat)
    (text : List Nat) (fore back : RGB) : List CellWrite :=
  let text1 := if rc.left < clip.left
    then text.drop (clipSkip text (clip.left - rc.left)) else text
  let rcLeft := if rc.left < clip.left then clip.left else rc.left
  let clipChars := w.Width - rcLeft
  let bytes := clipSkip text1 clipChars
  if bytes = 0 then []
  else if text1.headD 0 = 0 then []
  else drawLoopGo bytes text1 bytes rcLeft rc.top w.left w.top
    (to_rgb fore ||| attrs) (to_rgb back)

/-- Every grapheme width reported by the ScintillaTermbox.cxx variant is at
least 1 (it is 1 or 2 by definition). -/
theorem grapheme_width_pos (s : List Nat) : 1 ≤ grapheme_width s := by
  simp only [grapheme_width]
  split <;> omega

/-- Columns written by the drawing loop never fall left of its starting
column: each step moves the column right by a nonnegative width. -/
theorem drawLoopGo_left_bound (fuel : Nat) :
    ∀ rest bytesLeft x y wl wt fg bg, ∀ c ∈ drawLoopGo fuel rest bytesLeft x y wl wt fg bg,
      wl + x ≤ c.x := by
  induction fuel with
  | zero =>
    intro rest bytesLeft x y wl wt fg bg c hc
    simp [drawLoopGo] at hc
  | succ fuel ih =>
    intro rest bytesLeft x y wl wt fg bg c hc
    simp only [drawLoopGo] at hc
    split at hc
    · simp only [List.mem_singleton] at hc
      subst hc
      simp
    · simp only [List.mem_cons] at hc
      rcases hc with rfl | hc
      · simp
      · have h1 := grapheme_width_pos rest
        have h2 := ih (rest.drop (utf8_char_to_unicode rest).2)
          (bytesLeft - (utf8_char_to_unicode rest).2) (x + grapheme_width rest) y wl wt fg bg c hc
        omega

/-- Concrete window, clip, rectangle and text for the DrawText clip claim:
an 80-column window, clip boundary at column 5, draw rectangle starting
at column 3 and the text "a", U+3042 (3 bytes, width 2), "b", so that
U+3042 would occupy columns 4-5, straddling the clip boundary. -/
def clipWin1 : TermboxWin := ⟨0, 0, 79, 0⟩

/-- Clip region with left boundary at column 5. -/
def clipRegion1 : PRect := ⟨5, 0, 80, 1⟩

/-- Draw rectangle starting left of the clip boundary. -/
def clipRect1 : PRect := ⟨3, 0, 40, 1⟩

/-- Text bytes: 0x61 ("a"), 0xE3 0x81 0x82 (U+3042, display width 2),
0x62 ("b"). -/
def clipText1 : List Nat := [0x61, 0xE3, 0x81, 0x82, 0x62]

/-- C2 counterexample: with the clip boundary at column 5 and the draw
rectangle starting at column 3, the code point U+3042 spans columns 4-5
of the unclipped placement, straddling the boundary; the claim says such
a code point is dropped entirely, but DrawTextNoClip retains it and draws
it at column 5 (followed by "b" at column 7), as the evaluation shows. -/
theorem C2_straddling_codepoint_drawn :
    (drawTextNoClip clipWin1 clipRegion1 clipRect1 0 clipText1 rgb0 rgb0).map
      (fun c => (c.x, c.ch)) = [(5, 0x3042), (7, 0x62)] := by
  decide

/-- C2 (amended): when the clip region's left boundary exceeds the draw
rectangle's left edge, DrawTextNoClip never writes a cell at a column
left of `clip.left`; leading code points are skipped only while their
cumulative display width stays within the clipped span, and the first
code point at or past the boundary (including one straddling it) is
drawn starting at column `clip.left`. -/
theorem C2_no_write_left_of_clip (w : TermboxWin) (clip rc : PRect) (attrs : Nat)
    (text : List Nat) (fore back : RGB) (h : rc.left < clip.left) :
    ∀ c ∈ drawTextNoClip w clip rc attrs text fore back, w.left + clip.left ≤ c.x := by
  intro c hc
  unfold drawTextNoClip at hc
  simp only [if_pos h] at hc
  split at hc
  · simp at hc
  · split at hc
    · simp at hc
    · exact drawLoopGo_left_bound _ _ _ _ _ _ _ _ _ c hc

/-- C2 witness: the amended theorem applied at the concrete straddling
input, showing the cell written for U+3042 sits at or right of the clip
boundary column. -/
theorem C2_no_write_left_of_clip_witness :
    clipWin1.left + clipRegion1.left ≤ (⟨5, 0, 0x3042, 0, 0⟩ : CellWrite).x :=
  C2_no_write_left_of_clip clipWin1 clipRegion1 clipRect1 0 clipText1 rgb0 rgb0
    (by decide) ⟨5, 0, 0x3042, 0, 0⟩ (by decide)

/-- C5: range and defaults of the grapheme-width functions. For the
PlatTermbox.cxx variant, under the platform guarantees that `wcwidth`
never reports more than 2 columns and behaves standardly on printable
ASCII: the result lies in {0,1,2}; printable ASCII bytes give 1;
a failed decode (`mbtowc` returning less than 1) gives 1; and a negative
`wcwidth` report gives 1. The ScintillaTermbox.cxx variant needs no
platform hypotheses: its result lies in {1,2} (hence in {0,1,2}), and
printable ASCII bytes give 1. -/
theorem C5_grapheme_width_range (P : WideCharPlatform)
    (hbound : ∀ wch, P.wcwidth wch ≤ 2)
    (hascii : ∀ b rest, 0x20 ≤ b → b ≤ 0x7e → P.mbtowc (b :: rest) = (1, b))
    (hasciiw : ∀ b, 0x20 ≤ b → b ≤ 0x7e → P.wcwidth b = 1) :
    (∀ s, 0 ≤ grapheme_width_mb P s ∧ grapheme_width_mb P s ≤ 2) ∧
    (∀ b rest, 0x20 ≤ b → b ≤ 0x7e → grapheme_width_mb P (b :: rest) = 1) ∧
    (∀ s, (P.mbtowc s).1 < 1 → grapheme_width_mb P s = 1) ∧
    (∀ s, 1 ≤ (P.mbtowc s).1 → P.wcwidth (P.mbtowc s).2 < 0 →
      grapheme_width_mb P s = 1) ∧
    (∀ s, 0 ≤ grapheme_width s ∧ grapheme_width s ≤ 2) ∧
    (∀ b rest, 0x20 ≤ b → b ≤ 0x7e → grapheme_width (b :: rest) = 1) := by
  refine ⟨?_, ?_, ?_, ?_, ?_, ?_⟩
  · intro s
    simp only [grapheme_width_mb]
    split_ifs with h1 h2
    · omega
    · exact ⟨h2, hbound _⟩
    · omega
  · intro b rest hb1 hb2
    simp [grapheme_width_mb, hascii b rest hb1 hb2, hasciiw b hb1 hb2]
  · intro s h
    simp [grapheme_width_mb, h]
  · intro s h1 h2
    simp only [grapheme_width_mb]
    rw [if_neg (by omega), if_neg (by omega)]
  · intro s
    simp only [grapheme_width]
    split <;> omega
  · intro b rest hb1 hb2
    have hl : utf8_char_length b = 1 := by
      unfold utf8_char_length
      rw [if_pos (by omega)]
    simp [grapheme_width, hl]

/-- Concrete platform instance with standard single-width characters, used
to instantiate the grapheme-width theorem. -/
def asciiPlatform : WideCharPlatform :=
  { mbtowc := fun s => (1, s.headD 0), wcwidth := fun _ => 1 }

/-- C5 witness: both grapheme-width variants return 1 on the printable
ASCII byte 0x41, by the main theorem applied to a concrete platform. -/
theorem C5_grapheme_width_range_witness :
    grapheme_width_mb asciiPlatform [0x41] = 1 ∧ grapheme_width [0x41] = 1 :=
  ⟨(C5_grapheme_width_range asciiPlatform (fun _ => by norm_num [asciiPlatform])
      (fun _ _ _ _ => rfl) (fun _ _ _ => rfl)).2.1 0x41 [] (by norm_num) (by norm_num),
   (C5_grapheme_width_range asciiPlatform (fun _ => by norm_num [asciiPlatform])
      (fun _ _ _ _ => rfl) (fun _ _ _ => rfl)).2.2.2.2.2 0x41 [] (by norm_num) (by norm_num)⟩

/-- Largest registrable type index, from ScintillaTermbox.h line 92:
`#define IMAGE_MAX 31`. -/
def IMAGE_MAX : Int := 31

/-- Byte length of the first drawable UTF-8 character of a string; model of
Scintilla's `UTF8DrawBytes` (external collaborator, UniConversion.cxx):
returns the sequence length when the leading character is well formed and
1 otherwise. The model checks the expected length (at most 4) and the
continuation bytes; the upstream overlong/surrogate rejections are
omitted, which no claim exercises. -/
def UTF8DrawBytes (s : List Nat) : Nat :=
  match s with
  | [] => 1
  | b :: rest =>
    if b < 0x80 then 1
    else if b < 0xC2 then 1
    else
      let len := utf8_char_length b
      if len ≤ 4 ∧ (rest.take (len - 1)).length = len - 1 ∧
          ((rest.take (len - 1)).all (fun t => UTF8IsTrailByte t)) = true then len
      else 1

/-- State of the autocompletion list box, from class ListBoxImpl
(PlatTermbox.h lines 115-121 and ScintillaTermbox.cxx lines 645-649):
visible-row count `height`, tracked `width`, the entry list, the
registered type glyphs (array of IMAGE_MAX + 1 byte strings), the
current selection and the backing window. -/
structure ListBoxImpl where
  height : Int
  width : Int
  list : List (List Nat)
  types : List (List Nat)
  selection : Int
  wid : TermboxWin
deriving DecidableEq, Repr

/-- ListBoxImpl::Append (ScintillaTermbox.cxx lines 704-716; the
PlatTermbox.cxx copy at lines 779-793 is identical): pushes the
registered glyph for the type (the literal space string for an
out-of-range type) prepended to the text, grows `width` to byte length
plus 2 when smaller, and resets the backing window's right and bottom
from the tracked width and height. -/
def ListBoxImpl.Append (st : ListBoxImpl) (s : List Nat) (type : Int) : ListBoxImpl :=
  let entry := if 0 ≤ type ∧ type ≤ IMAGE_MAX
    then st.types.getD type.toNat [] ++ s else [0x20] ++ s
  let len : Int := s.length
  let width' := if st.width < len + 2 then len + 2 else st.width
  { st with
    list := st.list ++ [entry],
    width := width',
    wid := { st.wid with
      right := st.wid.left + width' - 1,
      bottom := st.wid.top + st.height - 1 } }

/-- ListBoxImpl::RegisterImage (ScintillaTermbox.cxx lines 788-793; the
PlatTermbox.cxx copy at lines 884-892 is identical): returns unchanged
for a type outside [0, IMAGE_MAX], otherwise stores the first
UTF8DrawBytes bytes of the glyph string at the type's slot. -/
def ListBoxImpl.RegisterImage (st : ListBoxImpl) (type : Int)
    (xpm_data : List Nat) : ListBoxImpl :=
  if type < 0 ∨ type > IMAGE_MAX then st
  else
    let len := UTF8DrawBytes xpm_data
    { st with types := st.types.set type.toNat (xpm_data.take len) }

/-- Empty list box with default height 5, width 0 and all type glyphs
registered to the space character, backed by the freshly created
window (0,0,1,1) of ListBoxImpl::Create. -/
def lbSt0 : ListBoxImpl :=
  { height := 5, width := 0, list := [], types := List.replicate 32 [0x20],
    selection := 0, wid := ⟨0, 0, 1, 1⟩ }

/-- C6 counterexample: appending the single character U+3042 (bytes
0xE3 0x81 0x82, display width 2) to the empty list box sets the tracked
width to strlen + 2 = 5, not to max(width, displayWidth + 2) = 4 as the
claim states. -/
theorem C6_append_width_counterexample :
    (lbSt0.Append [0xE3, 0x81, 0x82] (-1)).width ≠
      max lbSt0.width (WidthText [0xE3, 0x81, 0x82] + 2) := by
  decide

/-- C6 (amended): Append stores the glyph registered for the type (the
space character when the type is out of range) prepended to the text,
grows the tracked width to max(width, byteLength(text) + 2) — the byte
length of the text, not its display width — and resizes the backing
window's right and bottom to match the tracked width and height. -/
theorem C6_append_spec (st : ListBoxImpl) (s : List Nat) (type : Int) :
    (st.Append s type).list = st.list ++
      [(if 0 ≤ type ∧ type ≤ IMAGE_MAX then st.types.getD type.toNat []
        else [0x20]) ++ s] ∧
    (st.Append s type).width = max st.width ((s.length : Int) + 2) ∧
    (st.Append s type).wid.left = st.wid.left ∧
    (st.Append s type).wid.top = st.wid.top ∧
    (st.Append s type).wid.right = st.wid.left + (st.Append s type).width - 1 ∧
    (st.Append s type).wid.bottom = st.wid.top + st.height - 1 := by
  refine ⟨?_, ?_, ?_, ?_, ?_, ?_⟩ <;> simp only [ListBoxImpl.Append] <;>
    first
      | trivial
      | (split <;> first | rfl | omega)

/-- C10: RegisterImage with a type outside [0, IMAGE_MAX] is a no-op: the
whole list-box state, in particular the table of registered type glyphs,
is returned unchanged. -/
theorem C10_register_image_out_of_range (st : ListBoxImpl) (type : Int)
    (xpm_data : List Nat) (h : type < 0 ∨ type > IMAGE_MAX) :
    st.RegisterImage type xpm_data = st := by
  unfold ListBoxImpl.RegisterImage
  rw [if_pos h]

/-- C10 witness: registering a glyph at type 32 = IMAGE_MAX + 1 leaves the
default list box unchanged. -/
theorem C10_register_image_out_of_range_witness :
    lbSt0.RegisterImage 32 [0x2A] = lbSt0 :=
  C10_register_image_out_of_range lbSt0 32 [0x2A] (Or.inr (by decide))

/-- Start row of the visible window computed by ListBoxImpl::Select
(ScintillaTermbox.cxx lines 726-729; the PlatTermbox.cxx copy at lines
803-807 is identical): `s = n - height/2`, pulled back when `s + height`
runs past the list length and clamped at 0; the rendered rows are then
the `height` consecutive indices starting at this value. -/
def selectStart (len height n : Int) : Int :=
  let s := n - height.tdiv 2
  let s1 := if s + height > len then len - height else s
  if s1 < 0 then 0 else s1

/-- C7: for a list of length at least 1 and a visible-row count of at
least 1, selecting index 0 or index length - 1 yields a visible window
of `height` consecutive indices whose clamped start satisfies
start ≤ n < start + height, so the selected index is rendered. -/
theorem C7_select_visible_window (len height n : Int) (hlen : 1 ≤ len)
    (hh : 1 ≤ height) (hn : n = 0 ∨ n = len - 1) :
    selectStart len height n ≤ n ∧ n < selectStart len height n + height := by
  have h2 : height.tdiv 2 = height / 2 := Int.tdiv_eq_ediv (by omega) (by omega)
  rcases hn with rfl | rfl <;>
    (simp only [selectStart, h2]; split_ifs <;> omega)

/-- C7 witness: selecting the last index 2 of a 3-entry list shown in a
2-row list box keeps the selection inside the rendered window. -/
theorem C7_select_visible_window_witness :
    selectStart 3 2 2 ≤ 2 ∧ (2 : Int) < selectStart 3 2 2 + 2 :=
  C7_select_visible_window 3 2 2 (by norm_num) (by norm_num) (Or.inr (by norm_num))

/-- Mouse event kind SCM_PRESS, from ScintillaTermbox.h line 94. -/
def SCM_PRESS : Int := 1

/-- Mouse event kind SCM_DRAG, from ScintillaTermbox.h line 95. -/
def SCM_DRAG : Int := 2

/-- Mouse event kind SCM_RELEASE, from ScintillaTermbox.h line 96. -/
def SCM_RELEASE : Int := 3

/-- Outcome of scintilla_send_mouse: either the early not-handled return,
or the dispatch target with the window-relative coordinates handed on
(modifier flags and the timestamp are passed through unchanged and
omitted), or the fall-through for an unknown event kind. -/
inductive MouseDispatch where
  | rejected
  | pressD (button relY relX : Int)
  | dragD (relY relX : Int)
  | releaseD (relY relX : Int)
  | unknownEvent
deriving DecidableEq, Repr

/-- Dispatch decision of scintilla_send_mouse (ScintillaTermbox.cxx lines
1406-1424): with `begy = top`, `begx = left`, `maxy = bottom`,
`maxx = right`, events with `x < begx`, `x > begx + maxx`, `y < begy` or
`y > begy + maxy` are rejected unless the button is 4 or 5 or the event
is SCM_DRAG; otherwise the coordinates are translated window-relative
and the event is dispatched by kind. -/
def scintilla_send_mouse (w : TermboxWin) (event button y x : Int) : MouseDispatch :=
  let begy := w.top
  let begx := w.left
  let maxy := w.bottom
  let maxx := w.right
  if (x < begx ∨ x > begx + maxx ∨ y < begy ∨ y > begy + maxy) ∧
      button ≠ 4 ∧ button ≠ 5 ∧ event ≠ SCM_DRAG then
    .rejected
  else
    let y := y - begy
    let x := x - begx
    if event = SCM_PRESS then .pressD button y x
    else if event = SCM_DRAG then .dragD y x
    else if event = SCM_RELEASE then .releaseD y x
    else .unknownEvent

/-- Main window moved to origin (5,0), as scintilla_move can produce:
columns 5..14, rows 0..9. -/
def mouseWin1 : TermboxWin := ⟨5, 0, 14, 9⟩

/-- C3: evaluation of scintilla_send_mouse at the failing input. On the
window (5,0,14,9), a plain button-1 SCM_PRESS at (x,y) = (16,3) lies
outside the window rectangle (16 > right = 14), yet the out-of-window
test compares x against begx + maxx = left + right = 19, so the event is
not rejected and is dispatched with the out-of-window relative column
x - left = 11, contradicting the claim that such events return
not-handled without dispatch. -/
theorem C3_send_mouse_dispatches_outside_window :
    mouseWin1.right < 16 ∧
      scintilla_send_mouse mouseWin1 SCM_PRESS 1 3 16 = .pressD 1 3 11 := by
  decide

/-- Action taken by ScintillaTermbox::MousePress, paired with its handled
flag by `mousePress` below: autocompletion-list interactions, call-tip
click forwarding, scrollbar paging or drag starts, the generic
button-down forwarding, and the wheel scroll. -/
inductive PressAction where
  | acDoubleClick
  | acSelect (n : Int)
  | acNone
  | acIgnoreBorder
  | ctClick (rx ry : Int)
  | vScroll (target : Int)
  | hScroll (offset : Int)
  | vDragStart (dragOffset : Int)
  | hDragStart (dragOffset : Int)
  | buttonDown (x y : Int)
  | wheelScroll (target : Int)
  | ignored
deriving DecidableEq, Repr

/-- ScintillaTermbox::MousePress (ScintillaTermbox.cxx lines 1235-1317).
Inputs mirror the members read by the source: the main window `parent`,
the overlay states (`acActive` with the list box window, visible-row
count, length and selection; `ctInCallTipMode` with the call-tip
window), the click timestamps, the scrollbar state, the scroll state and
the event itself. The result is the action performed together with the
returned handled flag; a drag start returns false, as in the source
where the assignment falls through to the final `return false`. The
source's call-tip branch is the else of the autocompletion branch and
requires button 1; since the autocompletion guard always holds for
button 1 when the overlay is active, the else is rendered faithfully as
the guard `acActive = false`. -/
def mousePress (parent : TermboxWin) (acActive ctInCallTipMode : Bool)
    (aclbWin : TermboxWin) (aclbHeight aclbLength aclbSelection : Int)
    (ctWin : TermboxWin) (time autoCompleteLastClickTime doubleClickTime : Int)
    (verticalScrollBarVisible horizontalScrollBarVisible : Bool)
    (scrollBarVPos scrollBarHeight scrollBarHPos scrollBarWidth : Int)
    (topLine linesOnScreen xOffset : Int)
    (button y x : Int) : PressAction × Bool :=
  let acBranch : Option (PressAction × Bool) :=
    if acActive = true ∧ (button = 1 ∨ button = 4 ∨ button = 5) then
      let begy := aclbWin.top - parent.top
      let begx := aclbWin.left - parent.left
      let maxy := aclbWin.bottom - 1
      let maxx := aclbWin.right - 1
      let ry := y - begy
      let rx := x - begx
      if ry > 0 ∧ ry < maxy ∧ rx > 0 ∧ rx < maxx then
        if button = 1 then
          let middle := aclbHeight.tdiv 2
          let n := aclbSelection
          let ny := if n < middle then n
            else if n ≥ aclbLength - middle then (n - 1).tmod aclbHeight
            else middle
          let offset := ry - ny - 1
          if offset = 0 ∧ time - autoCompleteLastClickTime < doubleClickTime then
            some (.acDoubleClick, true)
          else some (.acSelect (n + offset), true)
        else
          let n := aclbSelection
          if button = 4 ∧ n > 0 then some (.acSelect (n - 1), true)
          else if button = 5 ∧ n < aclbLength - 1 then some (.acSelect (n + 1), true)
          else some (.acNone, true)
      else if ry = 0 ∨ ry = maxy ∨ rx = 0 ∨ rx = maxx then some (.acIgnoreBorder, true)
      else none
    else none
  match acBranch with
  | some r => r
  | none =>
    let ctBranch : Option (PressAction × Bool) :=
      if acActive = false ∧ ctInCallTipMode = true ∧ button = 1 then
        let begy := ctWin.top - parent.top
        let begx := ctWin.left - parent.left
        let maxy := ctWin.bottom - 1
        let maxx := ctWin.right - 1
        let ry := y - begy
        let rx := x - begx
        if ry ≥ 0 ∧ ry ≤ maxy ∧ rx ≥ 0 ∧ rx ≤ maxx then some (.ctClick rx ry, true)
        else none
      else none
    match ctBranch with
    | some r => r
    | none =>
      if button = 1 then
        if verticalScrollBarVisible = true ∧ x = parent.right then
          if y < scrollBarVPos then (.vScroll (topLine - linesOnScreen), true)
          else if y ≥ scrollBarVPos + scrollBarHeight then
            (.vScroll (topLine + linesOnScreen), true)
          else (.vDragStart (y - scrollBarVPos), false)
        else if horizontalScrollBarVisible = true ∧ y = parent.bottom then
          if x < scrollBarHPos then
            (.hScroll (xOffset - parent.right.tdiv 2), true)
          else if x ≥ scrollBarHPos + scrollBarWidth then
            (.hScroll (xOffset + parent.right.tdiv 2), true)
          else (.hDragStart (x - scrollBarHPos), false)
        else (.buttonDown x y, true)
      else if button = 4 ∨ button = 5 then
        let lines := max (parent.bottom.tdiv 4) 1
        let lines := if button = 4 then -lines else lines
        (.wheelScroll (topLine + lines), true)
      else (.ignored, false)

/-- Main window used for the wheel-scroll evaluation: 80 columns, 8 rows,
origin (0,0), so windowHeight = 8 and bottom = 7. -/
def wheelWin1 : TermboxWin := ⟨0, 0, 79, 7⟩

/-- C4 counterexample: a button-5 wheel press on the 8-row window with no
autocomplete overlay active scrolls by max(bottom/4, 1) =
max(7/4, 1) = 1 line, not by max(windowHeight/4, 1) = max(8/4, 1) = 2
lines as the claim states. -/
theorem C4_wheel_scroll_quarter_counterexample :
    mousePress wheelWin1 false false ⟨0, 0, 1, 1⟩ 5 0 0 ⟨0, 0, 1, 1⟩ 0 0 500
        false false 0 1 0 1 0 8 0 5 2 3 =
      (.wheelScroll 1, true) ∧
    (0 : Int) + max (wheelWin1.Height.tdiv 4) 1 = 2 := by
  decide

/-- C4 (amended): with no autocomplete overlay active, a wheel press
(button 4 or 5) is handled and scrolls the view by exactly
max(bottom/4, 1) lines — `bottom` being the main window's bottom
coordinate, which equals top + windowHeight - 1 — downward for button 5
and upward for button 4, for every cursor coordinate (x, y) and every
remaining state. -/
theorem C4_wheel_scroll_amount (parent : TermboxWin) (ctm : Bool)
    (aw : TermboxWin) (ah al asel : Int) (cw : TermboxWin) (t ualt dct : Int)
    (vsv hsv : Bool) (svp sbh shp sbw : Int) (topLine los xo : Int)
    (button y x : Int) (hb : button = 4 ∨ button = 5) :
    mousePress parent false ctm aw ah al asel cw t ualt dct vsv hsv
        svp sbh shp sbw topLine los xo button y x =
      (.wheelScroll (topLine +
        (if button = 4 then -(max (parent.bottom.tdiv 4) 1)
         else max (parent.bottom.tdiv 4) 1)), true) := by
  have hb1 : button ≠ 1 := by omega
  simp only [mousePress]
  rw [if_neg (by simp), if_neg (by simp [hb1]), if_neg hb1, if_pos hb]

/-- C4 witness: the amended theorem applied to the 8-row window with a
button-4 wheel press at cursor (10, 3): the view scrolls up by
max(7/4, 1) = 1 line. -/
theorem C4_wheel_scroll_amount_witness :
    mousePress wheelWin1 false false ⟨0, 0, 1, 1⟩ 5 0 0 ⟨0, 0, 1, 1⟩ 0 0 500
        false false 0 1 0 1 6 8 0 4 3 10 =
      (.wheelScroll (6 +
        (if (4 : Int) = 4 then -(max (wheelWin1.bottom.tdiv 4) 1)
         else max (wheelWin1.bottom.tdiv 4) 1)), true) :=
  C4_wheel_scroll_amount wheelWin1 false ⟨0, 0, 1, 1⟩ 5 0 0 ⟨0, 0, 1, 1⟩ 0 0 500
    false false 0 1 0 1 6 8 0 4 3 10 (Or.inl rfl)

/-- Truncating clamp of std::clamp(v, lo, hi):
`v < lo ? lo : hi < v ? hi : v`. -/
def stdClamp (v lo hi : Int) : Int :=
  if v < lo then lo else if hi < v then hi else v

/-- Scrollbar extents computed by ScintillaTermbox::ModifyScrollBars
(ScintillaTermbox.cxx lines 1016-1024). The source computes
`height = roundf((float)nPage / nMax * maxy)` and
`width = roundf((float)maxx / scrollWidth * maxx)`; these floating-point
roundings are modelled as the arbitrary integer inputs `roundedHeight`
and `roundedWidth`, so every theorem below holds for every value they
could take; the function then clamps each into [1, extent]. -/
def modifyScrollBars (w : TermboxWin) (roundedHeight roundedWidth : Int) :
    Int × Int :=
  (stdClamp roundedHeight 1 w.Height, stdClamp roundedWidth 1 w.Width)

/-- C8: the vertical thumb length computed by ModifyScrollBars always lies
in [1, windowHeight] whenever the window has at least one row — in
particular it is never zero — for every value of the rounded
page-to-document ratio, which covers nPage >= nMax. -/
theorem C8_thumb_length_bounds (w : TermboxWin) (rh rw : Int)
    (h : 1 ≤ w.Height) :
    1 ≤ (modifyScrollBars w rh rw).1 ∧ (modifyScrollBars w rh rw).1 ≤ w.Height := by
  simp only [modifyScrollBars, stdClamp]
  split_ifs <;> omega

/-- C8 witness: on a one-row window with a rounded ratio of 0 (a document
fitting a single page), the thumb length is clamped into [1, 1]. -/
theorem C8_thumb_length_bounds_witness :
    1 ≤ (modifyScrollBars ⟨0, 0, 79, 0⟩ 0 40).1 ∧
      (modifyScrollBars ⟨0, 0, 79, 0⟩ 0 40).1 ≤ (⟨0, 0, 79, 0⟩ : TermboxWin).Height :=
  C8_thumb_length_bounds ⟨0, 0, 79, 0⟩ 0 40 (by decide)

/-- Sticky error status of the Scintilla instance (Scintilla Status
values: Ok, BadAlloc, Failure). -/
inductive SciStatus where
  | ok
  | badAlloc
  | failure
deriving DecidableEq, Repr

/-- Outcome of the body of the WndProc try block: a returned value, or an
escaping std::bad_alloc, or any other escaping exception. -/
inductive DispatchResult where
  | value (v : Int)
  | throwBadAlloc
  | throwOther
deriving DecidableEq, Repr

/-- Message groups distinguished by the WndProc switch (ScintillaTermbox.cxx
lines 1142-1153): the two direct-access queries, the five ignored
property setters, and everything else, which goes to
ScintillaBase::WndProc. -/
inductive SciMsg where
  | getDirectFunction
  | getDirectPointer
  | setBufferedDraw
  | setWhitespaceSize
  | setPhasesDraw
  | setExtraAscent
  | setExtraDescent
  | passToBase
deriving DecidableEq, Repr

/-- Body of the WndProc try block (ScintillaTermbox.cxx lines 1142-1153):
the direct-access queries return addresses (modelled by the parameters
`directFn` and `thisPtr`), the unsupported property setters return 0,
and other messages produce whatever the base handler produces, value or
exception. -/
def wndProcBody (directFn thisPtr : Int) (m : SciMsg)
    (base : DispatchResult) : DispatchResult :=
  match m with
  | .getDirectFunction => .value directFn
  | .getDirectPointer => .value thisPtr
  | .setBufferedDraw => .value 0
  | .setWhitespaceSize => .value 0
  | .setPhasesDraw => .value 0
  | .setExtraAscent => .value 0
  | .setExtraDescent => .value 0
  | .passToBase => base

/-- ScintillaTermbox::WndProc (ScintillaTermbox.cxx lines 1140-1160): runs
the message switch inside a try block; a std::bad_alloc escaping it is
caught and recorded as the sticky BadAlloc status, any other exception
as Failure, and in both cases the function returns 0. The result is the
updated sticky status together with the returned value; totality of this
function is the embedded form of "the exception is not propagated". -/
def wndProc (errorStatus : SciStatus) (directFn thisPtr : Int) (m : SciMsg)
    (base : DispatchResult) : SciStatus × Int :=
  match wndProcBody directFn thisPtr m base with
  | .value v => (errorStatus, v)
  | .throwBadAlloc => (.badAlloc, 0)
  | .throwOther => (.failure, 0)

/-- C9: when the dispatch of a message raises std::bad_alloc, WndProc
catches it — the call still returns, with value 0 — and sets the sticky
error status to the bad-allocation status. -/
theorem C9_wndproc_bad_alloc (st : SciStatus) (directFn thisPtr : Int)
    (m : SciMsg) (base : DispatchResult)
    (h : wndProcBody directFn thisPtr m base = .throwBadAlloc) :
    wndProc st directFn thisPtr m base = (.badAlloc, 0) := by
  unfold wndProc
  rw [h]

/-- C9 witness: a message passed to the base handler whose processing
raises std::bad_alloc yields the BadAlloc status and return value 0. -/
theorem C9_wndproc_bad_alloc_witness :
    wndProc .ok 0 0 .passToBase .throwBadAlloc = (.badAlloc, 0) :=
  C9_wndproc_bad_alloc .ok 0 0 .passToBase .throwBadAlloc rfl
